import Mathlib

/-!
Shallow embedding of the Express resource layer of the
`turkce-metin-isleme` repository (the long-running server variant,
`src/unnamed/part_001` lines 94-268), which exposes CRUD access to
in-memory "analysis" records at `/api/analyze`.

Modelling conventions:
* The in-memory `Map<string, any>` store (`analyses`) is an insertion-ordered
  association list; `mapSet` replaces in place (JS `Map.set` keeps the original
  insertion position of an existing key), `mapDelete` removes the entry, and
  `Array.from(map.values())` is the list of values in list order.
* Effectful inputs of a single request are passed explicitly: the environment
  credential `process.env.GEMINI_API_KEY` as `Option String`, the outcome of the
  awaited `ai.models.generateContent` call as `Except String String` (a thrown
  error's message, or the resolved `response.text`), the generated
  `crypto.randomUUID()` as `freshId : String`, and `new Date().toISOString()`
  as `now : String`.
* The JS builtin `JSON.parse` is a parameter `parse : String → Except String Json`
  (either the parsed JSON value or the message of the thrown `SyntaxError`);
  theorems quantify over it.
* JS string truthiness (`if (!x)`) is `strTruthy`; `String.trim` models JS
  `trim()`.
-/

namespace TurkceMetin

/-- JSON values, as produced by `JSON.parse` and sent by `res.json(...)`. -/
inductive Json where
  | null : Json
  | bool : Bool → Json
  | num : Int → Json
  | str : String → Json
  | arr : List Json → Json
  | obj : List (String × Json) → Json
  deriving Repr, Inhabited

/-- The stored unit of state: exactly the three fields of the object built at
`src/unnamed/part_001` line 179 (`{ id, timestamp, analysis }`). -/
structure AnalysisRecord where
  id : String
  timestamp : String
  analysis : Json
  deriving Repr

/-- The in-memory store `analyses : Map<string, any>`, as an insertion-ordered
association list. -/
abbrev Store := List (String × AnalysisRecord)

/-- The body of an HTTP response: a JSON document (`res.json`), a raw
pass-through string (`res.send(response.text)`), or no content
(`res.sendStatus(204)`). -/
inductive Body where
  | json : Json → Body
  | raw : String → Body
  | empty : Body
  deriving Repr

/-- An HTTP response: status code, optional `Location` header, body. -/
structure HttpResponse where
  status : Nat
  location : Option String := none
  body : Body
  deriving Repr

/-- Result of running one handler: the response sent, the store afterwards, and
whether the outbound provider call (`ai.models.generateContent`) was made. -/
structure HandlerOut where
  resp : HttpResponse
  store : Store
  providerCalled : Bool
  deriving Repr

/-- JS truthiness of an optional string field: `undefined` and `""` are falsy. -/
def strTruthy : Option String → Bool
  | none => false
  | some s => s != ""

/-- The JS builtin `String.prototype.trim`: drop leading and trailing
whitespace. -/
def jsTrim (s : String) : String :=
  ⟨((s.data.dropWhile Char.isWhitespace).reverse.dropWhile Char.isWhitespace).reverse⟩

/-- The create/update text guard
`!text || typeof text !== 'string' || text.trim() === ''`
(the `typeof` disjunct is absorbed by typing the field as `Option String`). -/
def textInvalid : Option String → Bool
  | none => true
  | some s => s == "" || jsTrim s == ""

/-- `Map.prototype.get`: first (and, on reachable stores, only) entry. -/
def mapGet : Store → String → Option AnalysisRecord
  | [], _ => none
  | (k, v) :: rest, key => if k = key then some v else mapGet rest key

/-- `Map.prototype.has`. -/
def mapHas (s : Store) (key : String) : Bool :=
  (mapGet s key).isSome

/-- `Map.prototype.set`: replace in place if the key is present (keeping its
insertion position), otherwise append at the end. -/
def mapSet : Store → String → AnalysisRecord → Store
  | [], key, v => [(key, v)]
  | (k, w) :: rest, key, v =>
      if k = key then (key, v) :: rest else (k, w) :: mapSet rest key v

/-- `Map.prototype.delete`: remove the entry with the given key. -/
def mapDelete : Store → String → Store
  | [], _ => []
  | (k, w) :: rest, key =>
      if k = key then rest else (k, w) :: mapDelete rest key

/-- A `{ message }` error body. -/
def jsonMsg (m : String) : Json :=
  .obj [("message", .str m)]

/-- A `{ message, error }` error body. -/
def jsonMsgErr (m e : String) : Json :=
  .obj [("message", .str m), ("error", .str e)]

/-- The 404 message template at lines 133, 216 and 259. -/
def notFoundMsg (id : String) : String :=
  "Analysis with id " ++ id ++ " not found."

/-- Serialization of a stored record by `res.json(item)`. -/
def recordJson (r : AnalysisRecord) : Json :=
  .obj [("id", .str r.id), ("timestamp", .str r.timestamp), ("analysis", r.analysis)]

/-- The brief list entry `a => ({ id: a.id, timestamp: a.timestamp })` (line 139). -/
def summaryOf (r : AnalysisRecord) : Json :=
  .obj [("id", .str r.id), ("timestamp", .str r.timestamp)]

/-- `GET /api/analyze` (lines 128-141): return one record by `id`, or the brief
list `{ analyses: [...] }` when `id` is absent or empty (falsy). -/
def getAnalyze (idParam : Option String) (store : Store) : HttpResponse :=
  if strTruthy idParam then
    match idParam with
    | some id =>
        match mapGet store id with
        | none => { status := 404, body := .json (jsonMsg (notFoundMsg id)) }
        | some item => { status := 200, body := .json (recordJson item) }
    | none => { status := 200, body := .json (.obj [("analyses", .arr (store.map (fun a => summaryOf a.2)))]) }
  else
    { status := 200, body := .json (.obj [("analyses", .arr (store.map (fun a => summaryOf a.2)))]) }

/-- `POST /api/analyze` (lines 143-193): credential check, text validation,
provider call, then the inner `try`: parse `response.text`, store the new
record under a fresh id and answer `201` with a `Location` header; if parsing
fails, fall back to sending the raw provider text (status 200); a thrown
provider error maps to `500 { message, error }`. -/
def postAnalyze (parse : String → Except String Json) (apiKey : Option String)
    (text : Option String) (provider : Except String String)
    (freshId now : String) (store : Store) : HandlerOut :=
  if !strTruthy apiKey then
    ⟨{ status := 500, body := .json (jsonMsg "Internal Server Error: API key not configured.") }, store, false⟩
  else if textInvalid text then
    ⟨{ status := 400, body := .json (jsonMsg "\"text\" field is required and cannot be empty.") }, store, false⟩
  else
    match provider with
    | .error msg =>
        ⟨{ status := 500, body := .json (jsonMsgErr "Failed to analyze text." msg) }, store, true⟩
    | .ok reply =>
        match parse reply with
        | .ok parsed =>
            let record : AnalysisRecord := ⟨freshId, now, parsed⟩
            ⟨{ status := 201, location := some ("/api/analyze?id=" ++ freshId),
               body := .json (recordJson record) },
             mapSet store freshId record, true⟩
        | .error _ =>
            ⟨{ status := 200, body := .raw reply }, store, true⟩

/-- `PUT /api/analyze` (lines 212-252): id presence, store membership, text
validation, credential check, provider call, parse, then replace the record in
place; any thrown fault (provider or `JSON.parse`) maps to
`500 { message, error }`. -/
def putAnalyze (parse : String → Except String Json) (apiKey : Option String)
    (idField text : Option String) (provider : Except String String)
    (now : String) (store : Store) : HandlerOut :=
  if !strTruthy idField then
    ⟨{ status := 400, body := .json (jsonMsg "\"id\" field is required.") }, store, false⟩
  else
    match idField with
    | none =>
        ⟨{ status := 400, body := .json (jsonMsg "\"id\" field is required.") }, store, false⟩
    | some id =>
        if !mapHas store id then
          ⟨{ status := 404, body := .json (jsonMsg (notFoundMsg id)) }, store, false⟩
        else if textInvalid text then
          ⟨{ status := 400, body := .json (jsonMsg "\"text\" field is required and cannot be empty.") }, store, false⟩
        else if !strTruthy apiKey then
          ⟨{ status := 500, body := .json (jsonMsg "Internal Server Error: API key not configured.") }, store, false⟩
        else
          match provider with
          | .error msg =>
              ⟨{ status := 500, body := .json (jsonMsgErr "Failed to update analysis." msg) }, store, true⟩
          | .ok reply =>
              match parse reply with
              | .error msg =>
                  ⟨{ status := 500, body := .json (jsonMsgErr "Failed to update analysis." msg) }, store, true⟩
              | .ok parsed =>
                  let updated : AnalysisRecord := ⟨id, now, parsed⟩
                  ⟨{ status := 200, body := .json (recordJson updated) },
                   mapSet store id updated, true⟩

/-- The id resolution of `DELETE /api/analyze` (line 257):
`(req.query.id) || (req.body && req.body.id)`. -/
def resolveDeleteId (queryId bodyId : Option String) : Option String :=
  if strTruthy queryId then queryId else bodyId

/-- `DELETE /api/analyze` (lines 255-268): resolve the id from the query
parameter or JSON body, then 400 when falsy, 404 when not stored, otherwise
remove the record and answer `204 No Content`. -/
def deleteAnalyze (queryId bodyId : Option String) (store : Store) : HandlerOut :=
  if !strTruthy (resolveDeleteId queryId bodyId) then
    ⟨{ status := 400, body := .json (jsonMsg "\"id\" parameter or body field is required.") }, store, false⟩
  else
    match resolveDeleteId queryId bodyId with
    | none =>
        ⟨{ status := 400, body := .json (jsonMsg "\"id\" parameter or body field is required.") }, store, false⟩
    | some id =>
        if !mapHas store id then
          ⟨{ status := 404, body := .json (jsonMsg (notFoundMsg id)) }, store, false⟩
        else
          ⟨{ status := 204, body := .empty }, mapDelete store id, false⟩

/-- One client request to `/api/analyze`, with all effectful inputs recorded. -/
inductive Op where
  | get (idParam : Option String)
  | post (apiKey text : Option String) (provider : Except String String) (freshId now : String)
  | put (apiKey idField text : Option String) (provider : Except String String) (now : String)
  | del (queryId bodyId : Option String)

/-- The store after handling one request. -/
def applyOp (parse : String → Except String Json) (store : Store) : Op → Store
  | .get _ => store
  | .post apiKey text provider freshId now =>
      (postAnalyze parse apiKey text provider freshId now store).store
  | .put apiKey idField text provider now =>
      (putAnalyze parse apiKey idField text provider now store).store
  | .del queryId bodyId =>
      (deleteAnalyze queryId bodyId store).store

/-- The store after a sequence of requests starting from the empty store
created at process start (line 106). -/
def runOps (parse : String → Except String Json) (ops : List Op) : Store :=
  ops.foldl (applyOp parse) []

/-! ### Lemmas about the store operations -/

theorem mapGet_mapSet_self : ∀ (s : Store) (k : String) (v : AnalysisRecord),
    mapGet (mapSet s k v) k = some v
  | [], k, v => by simp [mapSet, mapGet]
  | (k', w) :: rest, k, v => by
    by_cases h : k' = k
    · subst h; simp [mapSet, mapGet]
    · simp only [mapSet, if_neg h, mapGet]
      exact mapGet_mapSet_self rest k v

theorem mapGet_mapSet_ne : ∀ (s : Store) (k : String) (v : AnalysisRecord)
    (k' : String), k' ≠ k → mapGet (mapSet s k v) k' = mapGet s k'
  | [], k, v, k', hne => by
    simp only [mapSet, mapGet]
    rw [if_neg (Ne.symm hne)]
  | (a, w) :: rest, k, v, k', hne => by
    by_cases h : a = k
    · subst h
      simp [mapSet, mapGet, Ne.symm hne]
    · simp only [mapSet, if_neg h, mapGet]
      by_cases h' : a = k'
      · simp [if_pos h']
      · simp only [if_neg h']
        exact mapGet_mapSet_ne rest k v k' hne

theorem mapGet_mapDelete_ne : ∀ (s : Store) (k k' : String), k' ≠ k →
    mapGet (mapDelete s k) k' = mapGet s k'
  | [], _, _, _ => rfl
  | (a, w) :: rest, k, k', hne => by
    by_cases h : a = k
    · subst h
      simp [mapDelete, mapGet, Ne.symm hne]
    · simp only [mapDelete, if_neg h, mapGet]
      by_cases h' : a = k'
      · simp [if_pos h']
      · simp only [if_neg h']
        exact mapGet_mapDelete_ne rest k k' hne

theorem mapGet_eq_none_of_not_mem : ∀ (s : Store) (k : String),
    k ∉ s.map Prod.fst → mapGet s k = none
  | [], _, _ => rfl
  | (a, w) :: rest, k, h => by
    have ha : a ≠ k := by
      intro hak; exact h (by simp [hak])
    have hrest : k ∉ rest.map Prod.fst := by
      intro hk; exact h (by simp [hk])
    simp only [mapGet, if_neg ha]
    exact mapGet_eq_none_of_not_mem rest k hrest

theorem mapGet_mapDelete_self : ∀ (s : Store) (k : String),
    (s.map Prod.fst).Nodup → mapGet (mapDelete s k) k = none
  | [], _, _ => rfl
  | (a, w) :: rest, k, hnd => by
    have hnd' : a ∉ rest.map Prod.fst ∧ (rest.map Prod.fst).Nodup := by
      rw [List.map_cons, List.nodup_cons] at hnd; exact hnd
    by_cases h : a = k
    · subst h
      simp only [mapDelete, if_pos rfl]
      exact mapGet_eq_none_of_not_mem rest a hnd'.1
    · simp only [mapDelete, if_neg h, mapGet]
      exact mapGet_mapDelete_self rest k hnd'.2

theorem mapGet_eq_none_of_has_false (s : Store) (k : String)
    (h : mapHas s k = false) : mapGet s k = none := by
  unfold mapHas at h
  exact Option.not_isSome_iff_eq_none.mp (by simp [h])

/-! ### Store-shape case analyses of the mutating handlers -/

theorem postAnalyze_store_cases (parse : String → Except String Json)
    (apiKey text : Option String) (provider : Except String String)
    (freshId now : String) (store : Store) :
    (postAnalyze parse apiKey text provider freshId now store).store = store ∨
    ∃ parsed, (postAnalyze parse apiKey text provider freshId now store).store
      = mapSet store freshId ⟨freshId, now, parsed⟩ := by
  unfold postAnalyze
  split
  · exact Or.inl rfl
  · split
    · exact Or.inl rfl
    · split
      · exact Or.inl rfl
      · split
        · exact Or.inr ⟨_, rfl⟩
        · exact Or.inl rfl

theorem putAnalyze_store_cases (parse : String → Except String Json)
    (apiKey idField text : Option String) (provider : Except String String)
    (now : String) (store : Store) :
    (putAnalyze parse apiKey idField text provider now store).store = store ∨
    ∃ id parsed,
      (putAnalyze parse apiKey idField text provider now store).store
        = mapSet store id ⟨id, now, parsed⟩ := by
  unfold putAnalyze
  repeat' split
  all_goals first
    | exact Or.inl rfl
    | exact Or.inr ⟨_, _, rfl⟩

theorem deleteAnalyze_store_cases (queryId bodyId : Option String) (store : Store) :
    (deleteAnalyze queryId bodyId store).store = store ∨
    ∃ id, (deleteAnalyze queryId bodyId store).store = mapDelete store id := by
  unfold deleteAnalyze
  repeat' split
  all_goals first
    | exact Or.inl rfl
    | exact Or.inr ⟨_, rfl⟩

theorem mem_mapSet : ∀ (s : Store) (k : String) (v : AnalysisRecord)
    (p : String × AnalysisRecord), p ∈ mapSet s k v → p ∈ s ∨ p = (k, v)
  | [], k, v, p, hp => by
    simp only [mapSet, List.mem_singleton] at hp
    exact Or.inr hp
  | (a, w) :: rest, k, v, p, hp => by
    by_cases h : a = k
    · subst h
      simp only [mapSet, if_pos rfl] at hp
      rcases List.mem_cons.mp hp with rfl | hmem
      · exact Or.inr rfl
      · exact Or.inl (List.mem_cons_of_mem _ hmem)
    · simp only [mapSet, if_neg h] at hp
      rcases List.mem_cons.mp hp with rfl | hmem
      · exact Or.inl (List.mem_cons_self _ _)
      · rcases mem_mapSet rest k v p hmem with h1 | h2
        · exact Or.inl (List.mem_cons_of_mem _ h1)
        · exact Or.inr h2

theorem mem_mapDelete : ∀ (s : Store) (k : String)
    (p : String × AnalysisRecord), p ∈ mapDelete s k → p ∈ s
  | [], _, p, hp => absurd hp (List.not_mem_nil p)
  | (a, w) :: rest, k, p, hp => by
    by_cases h : a = k
    · subst h
      simp only [mapDelete, if_pos rfl] at hp
      exact List.mem_cons_of_mem _ hp
    · simp only [mapDelete, if_neg h] at hp
      rcases List.mem_cons.mp hp with rfl | hmem
      · exact List.mem_cons_self _ _
      · exact List.mem_cons_of_mem _ (mem_mapDelete rest k p hmem)

/-- The invariant of the store `analyses`: every value is stored under its own
`id`. -/
def storeIdsMatch (s : Store) : Prop :=
  ∀ p ∈ s, p.2.id = p.1

theorem storeIdsMatch_mapSet {s : Store} {k : String} {v : AnalysisRecord}
    (hs : storeIdsMatch s) (hv : v.id = k) : storeIdsMatch (mapSet s k v) := by
  intro p hp
  rcases mem_mapSet s k v p hp with hmem | rfl
  · exact hs p hmem
  · exact hv

theorem storeIdsMatch_mapDelete {s : Store} {k : String}
    (hs : storeIdsMatch s) : storeIdsMatch (mapDelete s k) :=
  fun p hp => hs p (mem_mapDelete s k p hp)

theorem storeIdsMatch_applyOp (parse : String → Except String Json)
    {s : Store} (hs : storeIdsMatch s) (op : Op) :
    storeIdsMatch (applyOp parse s op) := by
  cases op with
  | get idParam => exact hs
  | post apiKey text provider freshId now =>
      rcases postAnalyze_store_cases parse apiKey text provider freshId now s with
        heq | ⟨parsed, heq⟩
      · rw [applyOp, heq]; exact hs
      · rw [applyOp, heq]; exact storeIdsMatch_mapSet hs rfl
  | put apiKey idField text provider now =>
      rcases putAnalyze_store_cases parse apiKey idField text provider now s with
        heq | ⟨id, parsed, heq⟩
      · rw [applyOp, heq]; exact hs
      · rw [applyOp, heq]; exact storeIdsMatch_mapSet hs rfl
  | del queryId bodyId =>
      rcases deleteAnalyze_store_cases queryId bodyId s with heq | ⟨id, heq⟩
      · rw [applyOp, heq]; exact hs
      · rw [applyOp, heq]; exact storeIdsMatch_mapDelete hs

theorem storeIdsMatch_foldl (parse : String → Except String Json) :
    ∀ (ops : List Op) (s : Store), storeIdsMatch s →
      storeIdsMatch (ops.foldl (applyOp parse) s)
  | [], _, hs => hs
  | op :: ops, s, hs =>
      storeIdsMatch_foldl parse ops (applyOp parse s op)
        (storeIdsMatch_applyOp parse hs op)

/-- C9: starting from the empty store created at process start, after any
sequence of GET/POST/PUT/DELETE requests every value stored in `analyses` has
its `id` field equal to the key under which it is stored (the value consists of
exactly the fields `id`, `timestamp` and `analysis` by the shape of
`AnalysisRecord`, which is the object literal built by both mutating
handlers). -/
theorem store_ids_invariant (parse : String → Except String Json) (ops : List Op)
    (k : String) (r : AnalysisRecord) (hmem : (k, r) ∈ runOps parse ops) :
    r.id = k := by
  have h := storeIdsMatch_foldl parse ops []
    (fun p hp => absurd hp (List.not_mem_nil p))
  exact h (k, r) hmem

/-- C9 witness: one successful create stores the record under its own id, and
the invariant theorem applies to it. -/
theorem store_ids_invariant_witness :
    ("id1", (⟨"id1", "t1", Json.null⟩ : AnalysisRecord)) ∈
      runOps (fun _ => .ok Json.null)
        [Op.post (some "k") (some "merhaba") (.ok "cevap") "id1" "t1"] ∧
    (⟨"id1", "t1", Json.null⟩ : AnalysisRecord).id = "id1" := by
  have h : runOps (fun _ => .ok Json.null)
      [Op.post (some "k") (some "merhaba") (.ok "cevap") "id1" "t1"]
      = [("id1", (⟨"id1", "t1", Json.null⟩ : AnalysisRecord))] := rfl
  have hmem : ("id1", (⟨"id1", "t1", Json.null⟩ : AnalysisRecord)) ∈
      runOps (fun _ => .ok Json.null)
        [Op.post (some "k") (some "merhaba") (.ok "cevap") "id1" "t1"] := by
    rw [h]; exact List.mem_singleton.mpr rfl
  exact ⟨hmem,
    store_ids_invariant (fun _ => .ok Json.null)
      [Op.post (some "k") (some "merhaba") (.ok "cevap") "id1" "t1"]
      "id1" ⟨"id1", "t1", Json.null⟩ hmem⟩

/-- C4: for every id present in the store and every non-empty text, a
successful update (credential present, provider reply parsed) answers 200 with
the updated record, stores the record with the same id and the new `analysis`
and `timestamp` under the unchanged key, leaves every other record unchanged,
and a subsequent read of that id returns the updated record. -/
theorem update_success_frame (parse : String → Except String Json)
    (apiKey : Option String) (id : String) (text : Option String)
    (reply : String) (parsed : Json) (now : String) (store : Store)
    (hid : id ≠ "") (hmem : mapHas store id = true)
    (htext : textInvalid text = false) (hkey : strTruthy apiKey = true)
    (hparse : parse reply = .ok parsed) :
    (putAnalyze parse apiKey (some id) text (.ok reply) now store).resp.status = 200 ∧
    (putAnalyze parse apiKey (some id) text (.ok reply) now store).resp.body
      = .json (recordJson ⟨id, now, parsed⟩) ∧
    mapGet (putAnalyze parse apiKey (some id) text (.ok reply) now store).store id
      = some ⟨id, now, parsed⟩ ∧
    (∀ k, k ≠ id →
      mapGet (putAnalyze parse apiKey (some id) text (.ok reply) now store).store k
        = mapGet store k) ∧
    getAnalyze (some id)
        (putAnalyze parse apiKey (some id) text (.ok reply) now store).store
      = { status := 200, body := .json (recordJson ⟨id, now, parsed⟩) } := by
  have hidT : strTruthy (some id) = true := by simp [strTruthy, hid]
  have hput : putAnalyze parse apiKey (some id) text (.ok reply) now store
      = ⟨{ status := 200, body := .json (recordJson ⟨id, now, parsed⟩) },
         mapSet store id ⟨id, now, parsed⟩, true⟩ := by
    simp [putAnalyze, hidT, hmem, htext, hkey, hparse]
  rw [hput]
  refine ⟨rfl, rfl, mapGet_mapSet_self store id _, ?_, ?_⟩
  · exact fun k hk => mapGet_mapSet_ne store id _ k hk
  · simp [getAnalyze, strTruthy, hid, mapGet_mapSet_self store id]

/-- C4 witness: a concrete successful update of a stored record. -/
theorem update_success_frame_witness :
    ("a1" : String) ≠ "" ∧
    mapHas [("a1", (⟨"a1", "t0", Json.null⟩ : AnalysisRecord))] "a1" = true ∧
    textInvalid (some "Yeni metin") = false ∧
    strTruthy (some "anahtar") = true ∧
    mapGet (putAnalyze (fun _ => .ok (Json.str "ozet")) (some "anahtar")
        (some "a1") (some "Yeni metin") (.ok "r") "t9"
        [("a1", ⟨"a1", "t0", Json.null⟩)]).store "a1"
      = some ⟨"a1", "t9", Json.str "ozet"⟩ :=
  ⟨by decide, rfl, by decide, rfl,
   (update_success_frame (fun _ => .ok (Json.str "ozet")) (some "anahtar")
      "a1" (some "Yeni metin") "r" (Json.str "ozet") "t9"
      [("a1", ⟨"a1", "t0", Json.null⟩)]
      (by decide) rfl (by decide) rfl rfl).2.2.1⟩

/-- C5: if the requester fails during an update of a stored id — the provider
call throws, or its reply does not parse as JSON — the handler answers a 500
JSON error, the store is left untouched, and a subsequent read of the id
returns exactly what it returned before the update. -/
theorem update_failure_frame (parse : String → Except String Json)
    (apiKey : Option String) (id : String) (text : Option String)
    (provider : Except String String) (now : String) (store : Store)
    (hid : id ≠ "") (hmem : mapHas store id = true)
    (htext : textInvalid text = false) (hkey : strTruthy apiKey = true)
    (hfail : (∃ m, provider = .error m) ∨
             (∃ reply m, provider = .ok reply ∧ parse reply = .error m)) :
    (putAnalyze parse apiKey (some id) text provider now store).resp.status = 500 ∧
    (putAnalyze parse apiKey (some id) text provider now store).store = store ∧
    getAnalyze (some id)
        (putAnalyze parse apiKey (some id) text provider now store).store
      = getAnalyze (some id) store := by
  have hidT : strTruthy (some id) = true := by simp [strTruthy, hid]
  rcases hfail with ⟨m, rfl⟩ | ⟨reply, m, rfl, hparse⟩
  · have hput : putAnalyze parse apiKey (some id) text (.error m) now store
        = ⟨{ status := 500,
             body := .json (jsonMsgErr "Failed to update analysis." m) },
           store, true⟩ := by
      simp [putAnalyze, hidT, hmem, htext, hkey]
    rw [hput]
    exact ⟨rfl, rfl, rfl⟩
  · have hput : putAnalyze parse apiKey (some id) text (.ok reply) now store
        = ⟨{ status := 500,
             body := .json (jsonMsgErr "Failed to update analysis." m) },
           store, true⟩ := by
      simp [putAnalyze, hidT, hmem, htext, hkey, hparse]
    rw [hput]
    exact ⟨rfl, rfl, rfl⟩

/-- C5 witness: a concrete provider failure during update leaves the store
untouched and answers 500. -/
theorem update_failure_frame_witness :
    ("b2" : String) ≠ "" ∧
    mapHas [("b2", (⟨"b2", "t0", Json.null⟩ : AnalysisRecord))] "b2" = true ∧
    textInvalid (some "Bir metin") = false ∧
    strTruthy (some "gizli") = true ∧
    ((∃ m, (Except.error "kota doldu" : Except String String) = .error m) ∨
     (∃ reply m, (Except.error "kota doldu" : Except String String) = .ok reply ∧
        (fun s : String => (Except.error s : Except String Json)) reply = .error m)) ∧
    (putAnalyze (fun s => .error s) (some "gizli") (some "b2") (some "Bir metin")
        (.error "kota doldu") "t5" [("b2", ⟨"b2", "t0", Json.null⟩)]).store
      = [("b2", ⟨"b2", "t0", Json.null⟩)] :=
  ⟨by decide, rfl, by decide, rfl, Or.inl ⟨"kota doldu", rfl⟩,
   (update_failure_frame (fun s => .error s) (some "gizli") "b2"
      (some "Bir metin") (.error "kota doldu") "t5"
      [("b2", ⟨"b2", "t0", Json.null⟩)]
      (by decide) rfl (by decide) rfl (Or.inl ⟨"kota doldu", rfl⟩)).2.1⟩

/-- C6 counterexample: the claim quantifies over every id, but for the
empty-string id — absent from the (empty) store, and deliverable by a client
as `GET /api/analyze?id=` — the handler takes the falsy `if (id)` branch and
answers the 200 summary list, not the claimed 404. -/
theorem read_empty_id_counterexample :
    (getAnalyze (some "") []).status = 200 ∧
    (getAnalyze (some "") []).status ≠ 404 := by
  exact ⟨rfl, by decide⟩

/-- C6 amended: for every non-empty id, a read returns the stored record when
the id is present — in particular immediately after a successful create, whose
returned record it matches exactly (identical analysis) — and answers 404 with
body message exactly `Analysis with id <id> not found.` when the id is absent;
a read with an empty or missing id returns the summary list instead. -/
theorem read_roundtrip_amended :
    (∀ id store r, id ≠ "" → mapGet store id = some r →
      getAnalyze (some id) store
        = { status := 200, body := .json (recordJson r) }) ∧
    (∀ id store, id ≠ "" → mapGet store id = none →
      getAnalyze (some id) store
        = { status := 404, body := .json (jsonMsg (notFoundMsg id)) }) ∧
    (∀ parse apiKey text reply parsed freshId now store,
      strTruthy apiKey = true → textInvalid text = false →
      parse reply = Except.ok parsed → freshId ≠ "" →
      (postAnalyze parse apiKey text (.ok reply) freshId now store).resp.body
        = .json (recordJson ⟨freshId, now, parsed⟩) ∧
      getAnalyze (some freshId)
          (postAnalyze parse apiKey text (.ok reply) freshId now store).store
        = { status := 200, body := .json (recordJson ⟨freshId, now, parsed⟩) }) := by
  refine ⟨?_, ?_, ?_⟩
  · intro id store r hid hget
    simp [getAnalyze, strTruthy, hid, hget]
  · intro id store hid hget
    simp [getAnalyze, strTruthy, hid, hget]
  · intro parse apiKey text reply parsed freshId now store hkey htext hparse hfresh
    have hpost : postAnalyze parse apiKey text (.ok reply) freshId now store
        = ⟨{ status := 201, location := some ("/api/analyze?id=" ++ freshId),
             body := .json (recordJson ⟨freshId, now, parsed⟩) },
           mapSet store freshId ⟨freshId, now, parsed⟩, true⟩ := by
      simp [postAnalyze, hkey, htext, hparse]
    rw [hpost]
    exact ⟨rfl, by simp [getAnalyze, strTruthy, hfresh,
      mapGet_mapSet_self store freshId]⟩

/-- C6 witness: the concrete spec scenario `GET /api/analyze?id=doesnotexist`
on an empty store answers 404 with the exact message. -/
theorem read_roundtrip_amended_witness :
    ("doesnotexist" : String) ≠ "" ∧
    mapGet [] "doesnotexist" = none ∧
    getAnalyze (some "doesnotexist") []
      = { status := 404,
          body := .json (jsonMsg "Analysis with id doesnotexist not found.") } :=
  ⟨by decide, rfl,
   read_roundtrip_amended.2.1 "doesnotexist" [] (by decide) rfl⟩

/-- C7 counterexample: the empty-string id (sent as `DELETE /api/analyze?id=`)
is absent from the empty store, so the claim demands 404, but the id
resolution is falsy and the handler answers 400. -/
theorem delete_empty_id_counterexample :
    (deleteAnalyze (some "") none []).resp.status = 400 ∧
    (deleteAnalyze (some "") none []).resp.status ≠ 404 ∧
    (deleteAnalyze (some "") none []).store = [] :=
  ⟨rfl, by decide, rfl⟩

/-- C7 amended: when the id resolved from the query parameter or body is
non-empty: if present (in a store with distinct keys, as every `Map` state is)
the delete answers 204 no-content and removes exactly that record; if absent
it answers 404 and changes nothing; when no id is supplied, or only
empty-string ids, the delete answers 400 and changes nothing. -/
theorem delete_amended :
    (∀ queryId bodyId id store,
      resolveDeleteId queryId bodyId = some id → id ≠ "" →
      (store.map Prod.fst).Nodup → mapHas store id = true →
      (deleteAnalyze queryId bodyId store).resp.status = 204 ∧
      (deleteAnalyze queryId bodyId store).resp.body = Body.empty ∧
      mapGet (deleteAnalyze queryId bodyId store).store id = none ∧
      (∀ k, k ≠ id →
        mapGet (deleteAnalyze queryId bodyId store).store k = mapGet store k)) ∧
    (∀ store, (deleteAnalyze none none store).resp.status = 400 ∧
      (deleteAnalyze none none store).store = store) ∧
    (∀ store, (deleteAnalyze (some "") (some "") store).resp.status = 400 ∧
      (deleteAnalyze (some "") (some "") store).store = store) ∧
    (∀ queryId bodyId id store,
      resolveDeleteId queryId bodyId = some id → id ≠ "" →
      mapHas store id = false →
      (deleteAnalyze queryId bodyId store).resp.status = 404 ∧
      (deleteAnalyze queryId bodyId store).store = store) := by
  refine ⟨?_, fun store => ⟨rfl, rfl⟩, fun store => ⟨rfl, rfl⟩, ?_⟩
  · intro queryId bodyId id store hres hid hnd hmem
    have hdel : deleteAnalyze queryId bodyId store
        = ⟨{ status := 204, body := .empty }, mapDelete store id, false⟩ := by
      simp [deleteAnalyze, hres, strTruthy, hid, hmem]
    rw [hdel]
    exact ⟨rfl, rfl, mapGet_mapDelete_self store id hnd,
      fun k hk => mapGet_mapDelete_ne store id k hk⟩
  · intro queryId bodyId id store hres hid hmem
    have hdel : deleteAnalyze queryId bodyId store
        = ⟨{ status := 404, body := .json (jsonMsg (notFoundMsg id)) },
           store, false⟩ := by
      simp [deleteAnalyze, hres, strTruthy, hid, hmem]
    rw [hdel]
    exact ⟨rfl, rfl⟩

/-- C7 witness: deleting a concretely stored id removes it (a subsequent
lookup finds nothing). -/
theorem delete_amended_witness :
    resolveDeleteId (some "c3") none = some "c3" ∧
    ("c3" : String) ≠ "" ∧
    ([("c3", (⟨"c3", "t0", Json.null⟩ : AnalysisRecord))].map Prod.fst).Nodup ∧
    mapHas [("c3", (⟨"c3", "t0", Json.null⟩ : AnalysisRecord))] "c3" = true ∧
    mapGet (deleteAnalyze (some "c3") none
        [("c3", ⟨"c3", "t0", Json.null⟩)]).store "c3" = none :=
  ⟨rfl, by decide, by simp, rfl,
   (delete_amended.1 (some "c3") none "c3"
      [("c3", ⟨"c3", "t0", Json.null⟩)]
      rfl (by decide) (by simp) rfl).2.2.1⟩

/-- C8: a read with no id answers 200 with an object whose `analyses` list
holds exactly one `{id, timestamp}` summary per stored record, in insertion
order (the store's list order): the list is the elementwise image of the
store, so it has the store's length and its i-th entry summarizes the i-th
record. -/
theorem list_analyses_summary (store : Store) :
    (getAnalyze none store).status = 200 ∧
    (getAnalyze none store).body
      = .json (.obj [("analyses", .arr (store.map (fun a => summaryOf a.2)))]) ∧
    (store.map (fun a => summaryOf a.2)).length = store.length ∧
    (∀ i, (store.map (fun a => summaryOf a.2)).get? i
       = (store.get? i).map (fun a => summaryOf a.2)) :=
  ⟨rfl, rfl, by simp, fun i => by simp⟩

/-- C1 counterexample: with the credential configured and non-empty text, a
provider reply that does not parse as JSON makes the create answer 200 with
the raw reply — neither the claimed 201-with-insert nor a 500-mapped error
(the store is unchanged, but neither disjunct of the claim holds). -/
theorem create_raw_fallback_counterexample :
    (postAnalyze (fun s => .error ("Unexpected token " ++ s)) (some "key")
        (some "Deneme metni.") (.ok "yanit-metni") "f1" "t1" []).resp.status = 200 ∧
    (postAnalyze (fun s => .error ("Unexpected token " ++ s)) (some "key")
        (some "Deneme metni.") (.ok "yanit-metni") "f1" "t1" []).resp.status ≠ 201 ∧
    (postAnalyze (fun s => .error ("Unexpected token " ++ s)) (some "key")
        (some "Deneme metni.") (.ok "yanit-metni") "f1" "t1" []).resp.status ≠ 500 ∧
    (postAnalyze (fun s => .error ("Unexpected token " ++ s)) (some "key")
        (some "Deneme metni.") (.ok "yanit-metni") "f1" "t1" []).store = [] :=
  ⟨rfl, by decide, by decide, rfl⟩

/-- C1 amended: for every non-empty text and a freshly generated id not yet in
the store, a create either (i) inserts the record under the fresh id and
answers 201 with the record body and a `Location` header pointing at
`/api/analyze?id=<id>`, or (ii) fails with a 500 error leaving the store
unchanged, or (iii) — the fallback the original claim misses — passes an
unparseable provider reply through raw with status 200, also leaving the store
unchanged; in no case is an orphan record inserted. -/
theorem create_trichotomy (parse : String → Except String Json)
    (apiKey text : Option String) (provider : Except String String)
    (freshId now : String) (store : Store)
    (hfresh : mapHas store freshId = false)
    (htext : textInvalid text = false) :
    ((postAnalyze parse apiKey text provider freshId now store).resp.status = 201 ∧
     (postAnalyze parse apiKey text provider freshId now store).resp.location
       = some ("/api/analyze?id=" ++ freshId) ∧
     mapGet store freshId = none ∧
     (∃ parsed,
       (postAnalyze parse apiKey text provider freshId now store).resp.body
         = .json (recordJson ⟨freshId, now, parsed⟩) ∧
       (postAnalyze parse apiKey text provider freshId now store).store
         = mapSet store freshId ⟨freshId, now, parsed⟩)) ∨
    ((postAnalyze parse apiKey text provider freshId now store).resp.status = 500 ∧
     (postAnalyze parse apiKey text provider freshId now store).store = store) ∨
    ((postAnalyze parse apiKey text provider freshId now store).resp.status = 200 ∧
     (∃ reply, provider = .ok reply ∧
       (postAnalyze parse apiKey text provider freshId now store).resp.body
         = .raw reply) ∧
     (postAnalyze parse apiKey text provider freshId now store).store = store) := by
  by_cases hkey : strTruthy apiKey = true
  · cases provider with
    | error m =>
        have heq : postAnalyze parse apiKey text (.error m) freshId now store
            = ⟨{ status := 500,
                 body := .json (jsonMsgErr "Failed to analyze text." m) },
               store, true⟩ := by
          simp [postAnalyze, hkey, htext]
        rw [heq]
        exact Or.inr (Or.inl ⟨rfl, rfl⟩)
    | ok reply =>
        cases hp : parse reply with
        | ok parsed =>
            have heq : postAnalyze parse apiKey text (.ok reply) freshId now store
                = ⟨{ status := 201,
                     location := some ("/api/analyze?id=" ++ freshId),
                     body := .json (recordJson ⟨freshId, now, parsed⟩) },
                   mapSet store freshId ⟨freshId, now, parsed⟩, true⟩ := by
              simp [postAnalyze, hkey, htext, hp]
            rw [heq]
            exact Or.inl ⟨rfl, rfl,
              mapGet_eq_none_of_has_false store freshId hfresh,
              parsed, rfl, rfl⟩
        | error m =>
            have heq : postAnalyze parse apiKey text (.ok reply) freshId now store
                = ⟨{ status := 200, body := .raw reply }, store, true⟩ := by
              simp [postAnalyze, hkey, htext, hp]
            rw [heq]
            exact Or.inr (Or.inr ⟨rfl, ⟨reply, rfl, rfl⟩, rfl⟩)
  · have hkey0 : strTruthy apiKey = false := by
      cases h : strTruthy apiKey
      · rfl
      · exact absurd h hkey
    have heq : postAnalyze parse apiKey text provider freshId now store
        = ⟨{ status := 500,
             body := .json (jsonMsg "Internal Server Error: API key not configured.") },
           store, false⟩ := by
      simp [postAnalyze, hkey0]
    rw [heq]
    exact Or.inr (Or.inl ⟨rfl, rfl⟩)

/-- C1 witness: a concrete successful create lands in the first branch of the
trichotomy. -/
theorem create_trichotomy_witness :
    mapHas [] "w1" = false ∧
    textInvalid (some "Metin bir.") = false ∧
    (((postAnalyze (fun _ => .ok Json.null) (some "k") (some "Metin bir.")
          (.ok "yanit") "w1" "tw" []).resp.status = 201 ∧
      (postAnalyze (fun _ => .ok Json.null) (some "k") (some "Metin bir.")
          (.ok "yanit") "w1" "tw" []).resp.location
        = some ("/api/analyze?id=" ++ "w1") ∧
      mapGet [] "w1" = none ∧
      (∃ parsed,
        (postAnalyze (fun _ => .ok Json.null) (some "k") (some "Metin bir.")
            (.ok "yanit") "w1" "tw" []).resp.body
          = .json (recordJson ⟨"w1", "tw", parsed⟩) ∧
        (postAnalyze (fun _ => .ok Json.null) (some "k") (some "Metin bir.")
            (.ok "yanit") "w1" "tw" []).store
          = mapSet [] "w1" ⟨"w1", "tw", parsed⟩)) ∨
     ((postAnalyze (fun _ => .ok Json.null) (some "k") (some "Metin bir.")
          (.ok "yanit") "w1" "tw" []).resp.status = 500 ∧
      (postAnalyze (fun _ => .ok Json.null) (some "k") (some "Metin bir.")
          (.ok "yanit") "w1" "tw" []).store = []) ∨
     ((postAnalyze (fun _ => .ok Json.null) (some "k") (some "Metin bir.")
          (.ok "yanit") "w1" "tw" []).resp.status = 200 ∧
      (∃ reply, (Except.ok "yanit" : Except String String) = .ok reply ∧
        (postAnalyze (fun _ => .ok Json.null) (some "k") (some "Metin bir.")
            (.ok "yanit") "w1" "tw" []).resp.body = .raw reply) ∧
      (postAnalyze (fun _ => .ok Json.null) (some "k") (some "Metin bir.")
          (.ok "yanit") "w1" "tw" []).store = [])) :=
  ⟨rfl, by decide,
   create_trichotomy (fun _ => .ok Json.null) (some "k") (some "Metin bir.")
     (.ok "yanit") "w1" "tw" [] rfl (by decide)⟩

/-- C2 counterexample: with the credential configured, valid text, and a
provider reply that is not JSON, the caller receives the raw provider payload
with status 200 — not a 500-mapped structured JSON error — though no record is
inserted. -/
theorem create_parse_failure_counterexample :
    (postAnalyze (fun _ => .error "Unexpected end of JSON input") (some "anahtar2")
        (some "Baska bir metin") (.ok "ham-yanit") "f2" "t2" []).resp.status = 200 ∧
    (postAnalyze (fun _ => .error "Unexpected end of JSON input") (some "anahtar2")
        (some "Baska bir metin") (.ok "ham-yanit") "f2" "t2" []).resp.status ≠ 500 ∧
    (postAnalyze (fun _ => .error "Unexpected end of JSON input") (some "anahtar2")
        (some "Baska bir metin") (.ok "ham-yanit") "f2" "t2" []).resp.body
      = Body.raw "ham-yanit" ∧
    (postAnalyze (fun _ => .error "Unexpected end of JSON input") (some "anahtar2")
        (some "Baska bir metin") (.ok "ham-yanit") "f2" "t2" []).store = [] :=
  ⟨rfl, by decide, rfl, rfl⟩

/-- C2 amended: when the provider's reply to a create is unparseable as JSON
(credential configured, valid text), the handler falls back to sending the raw
provider payload with status 200 — the caller does receive the raw payload —
and no record is inserted. -/
theorem create_unparseable_passthrough (parse : String → Except String Json)
    (apiKey text : Option String) (reply m freshId now : String) (store : Store)
    (hkey : strTruthy apiKey = true) (htext : textInvalid text = false)
    (hparse : parse reply = .error m) :
    (postAnalyze parse apiKey text (.ok reply) freshId now store).resp.status = 200 ∧
    (postAnalyze parse apiKey text (.ok reply) freshId now store).resp.body
      = .raw reply ∧
    (postAnalyze parse apiKey text (.ok reply) freshId now store).store = store := by
  have heq : postAnalyze parse apiKey text (.ok reply) freshId now store
      = ⟨{ status := 200, body := .raw reply }, store, true⟩ := by
    simp [postAnalyze, hkey, htext, hparse]
  rw [heq]
  exact ⟨rfl, rfl, rfl⟩

/-- C2 witness: a concrete unparseable reply is passed through raw. -/
theorem create_unparseable_passthrough_witness :
    strTruthy (some "k2") = true ∧
    textInvalid (some "Ucuncu metin") = false ∧
    (postAnalyze (fun _ => .error "beklenmeyen belirtec") (some "k2")
        (some "Ucuncu metin") (.ok "duz yazi") "f3" "t3" []).resp.body
      = .raw "duz yazi" :=
  ⟨rfl, by decide,
   (create_unparseable_passthrough (fun _ => .error "beklenmeyen belirtec")
      (some "k2") (some "Ucuncu metin") "duz yazi" "beklenmeyen belirtec"
      "f3" "t3" [] rfl (by decide) rfl).2.1⟩

/-- C3 counterexample: a create with whitespace-only text but a missing
credential answers 500, not the claimed 400: the credential check at the top
of the POST handler precedes text validation (no provider call is made either
way). -/
theorem create_config_first_counterexample :
    (postAnalyze (fun s => .error s) none (some "   ") (.error "e") "f4" "t4" []).resp.status = 500 ∧
    (postAnalyze (fun s => .error s) none (some "   ") (.error "e") "f4" "t4" []).resp.status ≠ 400 ∧
    (postAnalyze (fun s => .error s) none (some "   ") (.error "e") "f4" "t4" []).providerCalled = false :=
  ⟨rfl, by decide, rfl⟩

/-- C3 amended: empty or whitespace-only text yields a 400 with zero provider
calls and no store change for a create whenever the credential is configured,
and for an update whenever the supplied id is present in the store (there
regardless of the credential); a create without the configured credential
answers 500 instead — still with zero provider calls and no store change. -/
theorem empty_text_validation_amended :
    (∀ parse apiKey s provider freshId now store,
      strTruthy apiKey = true → jsTrim s = "" →
      (postAnalyze parse apiKey (some s) provider freshId now store).resp.status = 400 ∧
      (postAnalyze parse apiKey (some s) provider freshId now store).providerCalled = false ∧
      (postAnalyze parse apiKey (some s) provider freshId now store).store = store) ∧
    (∀ parse apiKey id s provider now store,
      mapHas store id = true → jsTrim s = "" →
      (putAnalyze parse apiKey (some id) (some s) provider now store).resp.status = 400 ∧
      (putAnalyze parse apiKey (some id) (some s) provider now store).providerCalled = false ∧
      (putAnalyze parse apiKey (some id) (some s) provider now store).store = store) ∧
    (∀ parse apiKey text provider freshId now store,
      strTruthy apiKey = false →
      (postAnalyze parse apiKey text provider freshId now store).resp.status = 500 ∧
      (postAnalyze parse apiKey text provider freshId now store).providerCalled = false ∧
      (postAnalyze parse apiKey text provider freshId now store).store = store) := by
  refine ⟨?_, ?_, ?_⟩
  · intro parse apiKey s provider freshId now store hkey hs
    have htextT : textInvalid (some s) = true := by simp [textInvalid, hs]
    have heq : postAnalyze parse apiKey (some s) provider freshId now store
        = ⟨{ status := 400,
             body := .json (jsonMsg "\"text\" field is required and cannot be empty.") },
           store, false⟩ := by
      simp [postAnalyze, hkey, htextT]
    rw [heq]
    exact ⟨rfl, rfl, rfl⟩
  · intro parse apiKey id s provider now store hmem hs
    by_cases hid : id = ""
    · subst hid
      exact ⟨rfl, rfl, rfl⟩
    · have htextT : textInvalid (some s) = true := by simp [textInvalid, hs]
      have hidT : strTruthy (some id) = true := by simp [strTruthy, hid]
      have heq : putAnalyze parse apiKey (some id) (some s) provider now store
          = ⟨{ status := 400,
               body := .json (jsonMsg "\"text\" field is required and cannot be empty.") },
             store, false⟩ := by
        simp [putAnalyze, hidT, hmem, htextT]
      rw [heq]
      exact ⟨rfl, rfl, rfl⟩
  · intro parse apiKey text provider freshId now store hkey0
    have heq : postAnalyze parse apiKey text provider freshId now store
        = ⟨{ status := 500,
             body := .json (jsonMsg "Internal Server Error: API key not configured.") },
           store, false⟩ := by
      simp [postAnalyze, hkey0]
    rw [heq]
    exact ⟨rfl, rfl, rfl⟩

/-- C3 witness: the spec's concrete scenario — create with text `"   "` and a
configured credential — answers 400 with no provider call. -/
theorem empty_text_validation_amended_witness :
    strTruthy (some "w") = true ∧
    jsTrim "   " = "" ∧
    (postAnalyze (fun _ => .ok Json.null) (some "w") (some "   ")
        (.error "x") "f5" "t5" []).resp.status = 400 ∧
    (postAnalyze (fun _ => .ok Json.null) (some "w") (some "   ")
        (.error "x") "f5" "t5" []).providerCalled = false :=
  ⟨rfl, by decide,
   (empty_text_validation_amended.1 (fun _ => .ok Json.null) (some "w") "   "
      (.error "x") "f5" "t5" [] rfl (by decide)).1,
   (empty_text_validation_amended.1 (fun _ => .ok Json.null) (some "w") "   "
      (.error "x") "f5" "t5" [] rfl (by decide)).2.1⟩

/-- C10 counterexample: the claim's universal includes the empty-string id,
which is absent from every store; but the `!id` guard fires before the store
lookup and the handler answers 400, not 404. -/
theorem update_empty_id_counterexample :
    (putAnalyze (fun s => .error s) none (some "") (some "") (.error "e") "t" []).resp.status = 400 ∧
    (putAnalyze (fun s => .error s) none (some "") (some "") (.error "e") "t" []).resp.status ≠ 404 :=
  ⟨rfl, by decide⟩

/-- C10 amended: for every non-empty id absent from the store, an update
answers 404 before text validation and before the credential check — even for
empty or whitespace-only text and even with no credential configured — with no
provider call and no store change; a missing or empty-string id answers 400
before the store lookup instead. -/
theorem update_not_found_precedence :
    (∀ parse apiKey id text provider now store,
      id ≠ "" → mapHas store id = false →
      (putAnalyze parse apiKey (some id) text provider now store).resp.status = 404 ∧
      (putAnalyze parse apiKey (some id) text provider now store).resp.body
        = .json (jsonMsg (notFoundMsg id)) ∧
      (putAnalyze parse apiKey (some id) text provider now store).store = store ∧
      (putAnalyze parse apiKey (some id) text provider now store).providerCalled = false) ∧
    (∀ parse apiKey text provider now store,
      (putAnalyze parse apiKey none text provider now store).resp.status = 400 ∧
      (putAnalyze parse apiKey (some "") text provider now store).resp.status = 400) := by
  constructor
  · intro parse apiKey id text provider now store hid hmem
    have hidT : strTruthy (some id) = true := by simp [strTruthy, hid]
    have heq : putAnalyze parse apiKey (some id) text provider now store
        = ⟨{ status := 404, body := .json (jsonMsg (notFoundMsg id)) },
           store, false⟩ := by
      simp [putAnalyze, hidT, hmem]
    rw [heq]
    exact ⟨rfl, rfl, rfl, rfl⟩
  · intro parse apiKey text provider now store
    exact ⟨rfl, rfl⟩

/-- C10 witness: an update of a non-empty absent id with empty text and no
credential answers 404. -/
theorem update_not_found_precedence_witness :
    ("yok1" : String) ≠ "" ∧
    mapHas [] "yok1" = false ∧
    (putAnalyze (fun s => .error s) none (some "yok1") (some "")
        (.error "err") "t" []).resp.status = 404 :=
  ⟨by decide, rfl,
   (update_not_found_precedence.1 (fun s => .error s) none "yok1" (some "")
      (.error "err") "t" [] (by decide) rfl).1⟩

end TurkceMetin
